import Mathlib

/-
Verification of the two Python HTTP services of this repository:
- src/Examples/AspirePublish/python-service/main.py  (basic service)
- src/complex-comparison/src/ai-service/main.py      (instrumented service)

Each service registers a single FastAPI route `GET /` whose handler returns
a literal one-key dict.  The instrumented service additionally sets up an
OpenTelemetry tracing pipeline at module load and, when executed directly,
starts a uvicorn server on 0.0.0.0:8000.

The route handlers and the module-level bootstrap statements are embedded
directly from the source.  The web framework's request dispatch and the
tracing instrumentation live in external libraries, so those parts are
modelled from the spec (each such definition carries a doc comment saying
so).
-/

namespace AspireWorkshop

/-- HTTP request methods considered by the model. -/
inductive Method where
  | GET
  | POST
  | PUT
  | DELETE
  | PATCH
deriving DecidableEq, Repr, BEq

/-- Serialize a JSON string literal (the message strings contain no
characters needing escapes). -/
def serializeStr (s : String) : String :=
  "\"" ++ s ++ "\""

/-- Serialize the fields of a flat JSON object of string values. -/
def serializeFields : List (String × String) → String
  | [] => ""
  | [(k, v)] => serializeStr k ++ ":" ++ serializeStr v
  | (k, v) :: rest => serializeStr k ++ ":" ++ serializeStr v ++ "," ++ serializeFields rest

/-- Serialize a flat JSON object of string values, as FastAPI serializes the
dict returned by a route handler. -/
def serializeObj (fs : List (String × String)) : String :=
  "\x7b" ++ serializeFields fs ++ "\x7d"

/-- Handler of the basic service
(src/Examples/AspirePublish/python-service/main.py, `read_root`):
returns the literal dict; embedded in `Except` so that a raising handler
could be represented, which this one never does. -/
def read_root_basic (_ : Unit) : Except String (List (String × String)) :=
  .ok [("message", "Hello from Python FastAPI via Uvicorn in .NET Aspire!")]

/-- Handler of the instrumented service
(src/complex-comparison/src/ai-service/main.py, `read_root`):
returns the literal dict. -/
def read_root_ai (_ : Unit) : Except String (List (String × String)) :=
  .ok [("message", "Hello from AI Service!")]

/-- A registered route: method, path and handler. -/
structure Route where
  method : Method
  path : String
  handler : Unit → Except String (List (String × String))

/-- A FastAPI application: the list of registered routes. -/
structure App where
  routes : List Route

/-- The basic service application: `app = FastAPI()` followed by the single
decorator registration `@app.get("/")` of `read_root`. -/
def basicApp : App :=
  { routes := [{ method := .GET, path := "/", handler := read_root_basic }] }

/-- The instrumented service application: `app = FastAPI()` followed by the
single decorator registration `@app.get("/")` of `read_root`. -/
def aiApp : App :=
  { routes := [{ method := .GET, path := "/", handler := read_root_ai }] }

/-- An HTTP response: status code, content type and serialized body. -/
structure Response where
  status : Nat
  contentType : String
  body : String
deriving DecidableEq, Repr

/-- Modelled from the spec: the web framework's request dispatch, which is
library code not in this repository.  A request matching a registered
route's path and method invokes its handler and, on a normal return,
produces `200` with the dict serialized as JSON; a handler failure would
produce `500`; a path with a registered route but no matching method
produces `405`; any other path produces the framework's default not-found
response `404`. -/
def dispatch (app : App) (m : Method) (p : String) : Response :=
  match app.routes.find? (fun r => r.path == p && r.method == m) with
  | some r =>
    match r.handler () with
    | .ok body =>
      { status := 200, contentType := "application/json", body := serializeObj body }
    | .error _ =>
      { status := 500, contentType := "text/plain", body := "Internal Server Error" }
  | none =>
    if app.routes.any (fun r => r.path == p) then
      { status := 405, contentType := "application/json"
        body := serializeObj [("detail", "Method Not Allowed")] }
    else
      { status := 404, contentType := "application/json"
        body := serializeObj [("detail", "Not Found")] }

/-- A span recorded for one handled request, capturing method, route and
status, as the spec describes auto-instrumentation output. -/
structure Span where
  method : Method
  route : String
  status : Nat
deriving DecidableEq, Repr

/-- State of the tracing pipeline of the instrumented service: the batching
span processor's buffer, whether the OTLP collector endpoint is reachable,
and the spans successfully delivered to the collector. -/
structure TraceState where
  buffer : List Span
  exporterReachable : Bool
  exported : List Span
deriving DecidableEq, Repr

/-- Modelled from the spec: `FastAPIInstrumentor.instrument_app(app)` wraps
the application so every inbound request produces a span (method, route,
status) appended out-of-band to the batching processor's buffer, while the
response itself is exactly what the unwrapped dispatch produces. -/
def instrumentedDispatch (app : App) (st : TraceState) (m : Method) (p : String) :
    Response × TraceState :=
  let resp := dispatch app m p
  let sp : Span := { method := m, route := p, status := resp.status }
  (resp, { st with buffer := st.buffer ++ [sp] })

/-- Modelled from the spec: the batching span processor flushes its buffer
to the OTLP exporter; if the collector endpoint is unreachable the batch is
silently dropped per the exporter's internal policy, never surfacing an
error. -/
def exportBatch (st : TraceState) : TraceState :=
  if st.exporterReachable then
    { st with buffer := [], exported := st.exported ++ st.buffer }
  else
    { st with buffer := [] }

/-- Issue the same request `n` times against the instrumented dispatch,
threading the tracing state, and collect the responses in order. -/
def runRequests (app : App) : Nat → TraceState → Method → String → List Response × TraceState
  | 0, st, _, _ => ([], st)
  | n + 1, st, m, p =>
    let step := instrumentedDispatch app st m p
    let rest := runRequests app n step.2 m p
    (step.1 :: rest.1, rest.2)

/-- Module-level bootstrap actions observable while evaluating either
service's main module. -/
inductive BootEvent where
  | setTracerProvider
  | addBatchSpanProcessorOTLP
  | createApp
  | instrumentApp
  | instrumentLogging
  | registerRoute (m : Method) (p : String)
  | serverRun (host : String) (port : Nat)
  | shutdownTracerProvider
deriving DecidableEq, Repr, BEq

/-- Whether a bootstrap event starts the embedded HTTP server. -/
def BootEvent.isServerRun : BootEvent → Bool
  | .serverRun _ _ => true
  | _ => false

/-- Whether a bootstrap event tears the tracing pipeline down. -/
def BootEvent.isTeardown : BootEvent → Bool
  | .shutdownTracerProvider => true
  | _ => false

/-- Evaluation of the basic service module
(src/Examples/AspirePublish/python-service/main.py), in statement order:
`app = FastAPI()` then the `@app.get("/")` registration of `read_root`.
No server run-loop is invoked and no host or port is bound. -/
def basicModuleEvents : List BootEvent :=
  [.createApp, .registerRoute .GET "/"]

/-- Evaluation of the instrumented service module
(src/complex-comparison/src/ai-service/main.py), in statement order:
`trace.set_tracer_provider(TracerProvider())`, then
`add_span_processor(BatchSpanProcessor(OTLPSpanExporter()))`, then
`app = FastAPI()`, then `FastAPIInstrumentor.instrument_app(app)`, then
`LoggingInstrumentor().instrument(set_logging_format=True)`, then the
`@app.get("/")` registration of `read_root`; finally, only when the module
is executed directly (`__name__ == "__main__"`),
`uvicorn.run(app, host="0.0.0.0", port=8000)`. -/
def aiModuleEvents (runAsMain : Bool) : List BootEvent :=
  [.setTracerProvider, .addBatchSpanProcessorOTLP, .createApp,
   .instrumentApp, .instrumentLogging, .registerRoute .GET "/"] ++
  (if runAsMain then [.serverRun "0.0.0.0" 8000] else [])

/-- C1: every GET request to path / on the basic service yields status 200,
Content-Type application/json, and exactly the JSON body
\x7b"message": "Hello from Python FastAPI via Uvicorn in .NET Aspire!"\x7d. -/
theorem basic_get_root_ok :
    dispatch basicApp .GET "/" =
      { status := 200, contentType := "application/json"
        body := "\x7b\"message\":\"Hello from Python FastAPI via Uvicorn in .NET Aspire!\"\x7d" } := by
  rfl

/-- C2: every GET request to path / on the instrumented service yields
status 200, Content-Type application/json, and exactly the JSON body
\x7b"message": "Hello from AI Service!"\x7d, irrespective of the tracing
state the request is handled under. -/
theorem ai_get_root_ok (st : TraceState) :
    (instrumentedDispatch aiApp st .GET "/").1 =
      { status := 200, contentType := "application/json"
        body := "\x7b\"message\":\"Hello from AI Service!\"\x7d" } := by
  rfl

/-- C3: instrumentation transparency — for every request under every
tracing state (in particular with the exporter unreachable), the
instrumented service's response equals the uninstrumented dispatch's
response; GET / still yields 200 with the unchanged body; and a failed
batch export is absorbed silently, leaving responses untouched. -/
theorem instrumentation_transparent (st : TraceState) (m : Method) (p : String) :
    (instrumentedDispatch aiApp st m p).1 = dispatch aiApp m p ∧
    (instrumentedDispatch aiApp st .GET "/").1 =
      { status := 200, contentType := "application/json"
        body := "\x7b\"message\":\"Hello from AI Service!\"\x7d" } ∧
    (exportBatch st).buffer = [] := by
  refine ⟨rfl, rfl, ?_⟩
  unfold exportBatch
  cases st.exporterReachable <;> simp

/-- C4: for every request to any path other than /, both services return
404; and each service registers exactly the single route GET / and no
other. -/
theorem non_root_not_found (m : Method) (p : String) (hp : p ≠ "/") :
    (dispatch basicApp m p).status = 404 ∧ (dispatch aiApp m p).status = 404 ∧
    basicApp.routes.map (fun r => (r.method, r.path)) = [(Method.GET, "/")] ∧
    aiApp.routes.map (fun r => (r.method, r.path)) = [(Method.GET, "/")] := by
  have hp' : (("/" : String) == p) = false := beq_eq_false_iff_ne.mpr (Ne.symm hp)
  refine ⟨?_, ?_, rfl, rfl⟩ <;>
    simp [dispatch, basicApp, aiApp, List.find?, List.any, hp']

/-- Witness for C4 at the concrete path /foo with method GET. -/
theorem non_root_not_found_witness :
    ("/foo" ≠ "/") ∧
    ((dispatch basicApp .GET "/foo").status = 404 ∧
     (dispatch aiApp .GET "/foo").status = 404 ∧
     basicApp.routes.map (fun r => (r.method, r.path)) = [(Method.GET, "/")] ∧
     aiApp.routes.map (fun r => (r.method, r.path)) = [(Method.GET, "/")]) :=
  ⟨by decide, non_root_not_found .GET "/foo" (by decide)⟩

/-- Helper for C5: the responses of n repetitions of the same request are
n copies of the one dispatch response, whatever tracing state is threaded
through. -/
theorem runRequests_fst_replicate (app : App) (n : Nat) (st : TraceState)
    (m : Method) (p : String) :
    (runRequests app n st m p).1 = List.replicate n (dispatch app m p) := by
  induction n generalizing st with
  | zero => rfl
  | succ k ih => simp [runRequests, instrumentedDispatch, List.replicate, ih]

/-- C5: idempotence — for either service, issuing the same request n times
yields byte-identical responses on every repetition; the handler mutates no
state observable by later requests (only the out-of-band span buffer
evolves). -/
theorem same_request_idempotent (n : Nat) (st : TraceState) (m : Method) (p : String) :
    (runRequests basicApp n st m p).1 = List.replicate n (dispatch basicApp m p) ∧
    (runRequests aiApp n st m p).1 = List.replicate n (dispatch aiApp m p) :=
  ⟨runRequests_fst_replicate basicApp n st m p, runRequests_fst_replicate aiApp n st m p⟩

/-- C6: startup ordering of the instrumented service — whether or not the
module runs as main, each of the four bootstrap steps (install tracer
provider, attach batching OTLP span processor, wrap the FastAPI app, wrap
logging) happens exactly once, in that order, no teardown step occurs, and
when the module runs as main every bootstrap step precedes the server
start. -/
theorem ai_bootstrap_order :
    ((aiModuleEvents true).count .setTracerProvider = 1 ∧
     (aiModuleEvents true).count .addBatchSpanProcessorOTLP = 1 ∧
     (aiModuleEvents true).count .instrumentApp = 1 ∧
     (aiModuleEvents true).count .instrumentLogging = 1 ∧
     (aiModuleEvents true).findIdx (fun e => e == .setTracerProvider) <
       (aiModuleEvents true).findIdx (fun e => e == .addBatchSpanProcessorOTLP) ∧
     (aiModuleEvents true).findIdx (fun e => e == .addBatchSpanProcessorOTLP) <
       (aiModuleEvents true).findIdx (fun e => e == .instrumentApp) ∧
     (aiModuleEvents true).findIdx (fun e => e == .instrumentApp) <
       (aiModuleEvents true).findIdx (fun e => e == .instrumentLogging) ∧
     (aiModuleEvents true).findIdx (fun e => e == .instrumentLogging) <
       (aiModuleEvents true).findIdx BootEvent.isServerRun ∧
     (aiModuleEvents true).filter BootEvent.isTeardown = []) ∧
    ((aiModuleEvents false).count .setTracerProvider = 1 ∧
     (aiModuleEvents false).count .addBatchSpanProcessorOTLP = 1 ∧
     (aiModuleEvents false).count .instrumentApp = 1 ∧
     (aiModuleEvents false).count .instrumentLogging = 1 ∧
     (aiModuleEvents false).findIdx (fun e => e == .setTracerProvider) <
       (aiModuleEvents false).findIdx (fun e => e == .addBatchSpanProcessorOTLP) ∧
     (aiModuleEvents false).findIdx (fun e => e == .addBatchSpanProcessorOTLP) <
       (aiModuleEvents false).findIdx (fun e => e == .instrumentApp) ∧
     (aiModuleEvents false).findIdx (fun e => e == .instrumentApp) <
       (aiModuleEvents false).findIdx (fun e => e == .instrumentLogging) ∧
     (aiModuleEvents false).filter BootEvent.isTeardown = []) := by
  decide

/-- C7: when the instrumented module is executed directly, it starts its
own embedded server bound to host 0.0.0.0 on port 8000, as the final step
of module evaluation. -/
theorem ai_main_runs_server :
    (aiModuleEvents true).filter BootEvent.isServerRun = [.serverRun "0.0.0.0" 8000] ∧
    (aiModuleEvents true).getLast? = some (.serverRun "0.0.0.0" 8000) := by
  decide

/-- C8: evaluating the basic service module constructs the application once
and registers the single GET / route, but never invokes a server run-loop
and never binds a host or port. -/
theorem basic_module_no_server :
    basicModuleEvents.filter BootEvent.isServerRun = [] ∧
    basicModuleEvents.count .createApp = 1 ∧
    basicModuleEvents.count (.registerRoute .GET "/") = 1 ∧
    basicApp.routes.map (fun r => (r.method, r.path)) = [(Method.GET, "/")] := by
  decide

/-- C9: the route handlers of both services are total — every handler of
every registered route returns a successful result, and consequently
dispatching any request on either service never produces the 500
internal-error response (only 200, 404 or 405 are reachable). -/
theorem handlers_never_fail (m : Method) (p : String) :
    (basicApp.routes.all fun r => (r.handler ()).isOk) = true ∧
    (aiApp.routes.all fun r => (r.handler ()).isOk) = true ∧
    (dispatch basicApp m p).status ∈ ([200, 404, 405] : List Nat) ∧
    (dispatch aiApp m p).status ∈ ([200, 404, 405] : List Nat) := by
  refine ⟨rfl, rfl, ?_, ?_⟩ <;>
  · simp only [dispatch, basicApp, aiApp]
    cases hp : (("/" : String) == p) <;> cases hm : m <;>
      simp [List.find?, List.any, hp, read_root_basic, read_root_ai] <;> decide

/-- C10: the single route on path / accepts the GET method only — every
non-GET request to / on either service yields 405 method-not-allowed, not
the 200 JSON payload of read_root. -/
theorem non_get_root_rejected (m : Method) (hm : m ≠ .GET) :
    (dispatch basicApp m "/").status = 405 ∧
    (dispatch aiApp m "/").status = 405 ∧
    (dispatch basicApp m "/").body ≠
      serializeObj [("message", "Hello from Python FastAPI via Uvicorn in .NET Aspire!")] ∧
    (dispatch aiApp m "/").body ≠ serializeObj [("message", "Hello from AI Service!")] := by
  cases m <;> first
    | exact absurd rfl hm
    | decide

/-- Witness for C10 at the concrete method POST. -/
theorem non_get_root_rejected_witness :
    (Method.POST ≠ Method.GET) ∧
    ((dispatch basicApp .POST "/").status = 405 ∧
     (dispatch aiApp .POST "/").status = 405 ∧
     (dispatch basicApp .POST "/").body ≠
       serializeObj [("message", "Hello from Python FastAPI via Uvicorn in .NET Aspire!")] ∧
     (dispatch aiApp .POST "/").body ≠ serializeObj [("message", "Hello from AI Service!")]) :=
  ⟨by decide, non_get_root_rejected .POST (by decide)⟩

end AspireWorkshop
